import Mathlib

/-!
Verification of the tk-houdini integration hooks.

Shallow embedding of the three source files:
  * `python/tk_houdini/startup.py`            (`setFrameRange`)
  * `hooks/tk-multi-publish2/basic/collector.py`
  * `hooks/tk-multi-publish2/basic/submit_for_review.py`

External hosts (Houdini `hou`, the sgtk engine and its optional apps, the
filesystem, the review-submission app) are modelled as explicit structures of
functions supplied as parameters.  Python exceptions are modelled with
`Except PyErr`; a Python `None` is `Option.none`.
-/

/-- Python exception classes that the embedded code can raise or catch. -/
inductive PyErr where
  | attributeError
  | keyError (k : String)
  | nameError (n : String)
  | exception (msg : String)
deriving DecidableEq, Repr

/-- Python `int(q)` on a real (here: rational) value truncates toward zero. -/
def pyInt (q : ℚ) : ℤ := Int.tdiv q.num q.den

/-- The stem of `os.path.splitext` applied to a bare file basename: the string
up to the last dot, except that a basename consisting of leading dots only is
returned whole (CPython `genericpath._splitext`). -/
def lastIdxOf (c : Char) : List Char → Option Nat
  | [] => none
  | a :: rest =>
    match lastIdxOf c rest with
    | some i => some (i + 1)
    | none => if a = c then some 0 else none

def splitextStem (s : String) : String :=
  let cs := s.toList
  match lastIdxOf '.' cs with
  | none => s
  | some d =>
    if (cs.take d).any (fun ch => ch ≠ '.') then String.mk (cs.take d) else s

/-- `os.path.basename` for forward-slash paths: the part after the last `/`. -/
def pathBasename (s : String) : String :=
  (s.splitOn "/").getLastD ""

/-- Python truthiness of an optional string: `None` and `""` are falsy. -/
def strFalsy (s : Option String) : Bool :=
  match s with
  | none => true
  | some t => t == ""

/-! ## startup.py -/

/-- A delegating call made into the `hou` host module. -/
inductive HouCall where
  | setFrameRangeCall (startFrame endFrame : Int)
  | setPlaybackRangeCall (startFrame endFrame : Int)
  | setFrameCall (frame : Int)
deriving DecidableEq, Repr

/-- The part of the host state that `hou.playbar` / `hou.setFrame` touch,
plus an opaque remainder `rest` standing for all other host state. -/
structure HouState where
  frameRange : Int × Int
  playbackRange : Int × Int
  currentFrame : Int
  rest : Nat
deriving DecidableEq, Repr

/-- `startup.setFrameRange`: returns the updated host state and the trace of
delegating host calls, in source order. -/
def setFrameRange (startFrame endFrame : Int) (h : HouState) : HouState × List HouCall :=
  ({ h with
      frameRange := (startFrame, endFrame),
      playbackRange := (startFrame, endFrame),
      currentFrame := startFrame },
   [HouCall.setFrameRangeCall startFrame endFrame,
    HouCall.setPlaybackRangeCall startFrame endFrame,
    HouCall.setFrameCall startFrame])

def hou0 : HouState :=
  { frameRange := (0, 0), playbackRange := (0, 0), currentFrame := 5, rest := 7 }

/-- Claim C8 counterexample: `setFrameRange` makes three delegating host calls,
not two, and it also changes the current frame of the host state. -/
theorem setFrameRange_not_two_ops :
    (setFrameRange 1 10 hou0).2.length = 3 ∧
    (setFrameRange 1 10 hou0).1.currentFrame ≠ hou0.currentFrame := by
  decide

/-- Claim C8 (amended): for every pair of inputs, `setFrameRange` performs
exactly three delegating host operations — it sets the frame range and the
playback range to `(startFrame, endFrame)` and sets the current frame to
`startFrame` — and changes nothing else of the host state. -/
theorem setFrameRange_three_ops :
    ∀ (s e : Int) (h : HouState),
      setFrameRange s e h =
        ({ frameRange := (s, e), playbackRange := (s, e), currentFrame := s,
           rest := h.rest },
         [HouCall.setFrameRangeCall s e, HouCall.setPlaybackRangeCall s e,
          HouCall.setFrameCall s]) := by
  intro s e h
  rfl

/-! ## Shared data model for the publish hooks -/

/-- A toolkit template (`sgtk` template object): the two methods this
repository calls on one. -/
structure Template where
  validate : String → Bool
  get_fields : String → List (String × String)

/-- An opaque ShotGrid published-file record (`sg_publish_data`). -/
structure PublishData where
  id : Nat
deriving DecidableEq, Repr

/-- An opaque ShotGrid Version entity returned by a successful submission. -/
structure Version where
  id : Nat
deriving DecidableEq, Repr

/-- A Houdini scene node; only its path is observed by this repository. -/
structure Node where
  nodePath : String
deriving DecidableEq, Repr

/-- The item property bag, restricted to the keys this repository reads or
writes.  A key that is absent (or set to Python `None`) is `none`; every
access in the sources goes through `properties.get`, which does not
distinguish the two. -/
structure ItemProps where
  work_template : Option Template := none
  publish_template : Option Template := none
  first_frame : Option Int := none
  last_frame : Option Int := none
  publish_name : Option String := none
  path : Option String := none
  sg_publish_data : Option PublishData := none

/-- A publish item as this repository observes and produces it: the display
name, the path handed to the base-class `_collect_file`, the
`frame_sequence` flag passed with it, the icon if one was set, the property
bag, and the item description. -/
structure Item where
  name : String
  srcPath : String
  frameSequence : Bool
  icon : Option String := none
  props : ItemProps := {}
  description : String := ""

/-- The ambient host services used by the collector: the filesystem, the
base-class item factory, the publisher utilities and the `hou` node API. -/
structure Sys where
  pathExists : String → Bool
  baseName : String → String
  publishName : String → String
  parmEval : Node → String → String
  instances : String → List Node
  diskLocation : String

/-! ## collector.py: toolkit cache nodes -/

/-- Surface of the optional `tk-houdini-cachenode` app. -/
structure CacheApp where
  get_nodes : Except PyErr (List Node)
  get_work_file_template : Option Template
  get_publish_file_template : Option Template
  get_output_path : Node → String

/-- Loop body of `collect_tk_cachenodes`: the item created for one node, or
`none` when the output path of the node does not exist on disk. -/
def cacheNodeItem (sys : Sys) (app : CacheApp)
    (work_template publish_template : Option Template) (node : Node) : Option Item :=
  let out_path := app.get_output_path node
  if sys.pathExists out_path then
    some { name := sys.baseName out_path ++ " (" ++ node.nodePath ++ ")",
           srcPath := out_path, frameSequence := true,
           props := { work_template := work_template,
                      publish_template := publish_template } }
  else none

/-- `HoudiniSessionCollector.collect_tk_cachenodes`; the result is the list of
items created.  An absent app logs and returns; an `AttributeError` from
`get_nodes` is caught, logged and swallowed. -/
def collect_tk_cachenodes (sys : Sys) (cachenode_app : Option CacheApp) :
    Except PyErr (List Item) :=
  match cachenode_app with
  | none => .ok []
  | some app =>
    match app.get_nodes with
    | .error .attributeError => .ok []
    | .error e => .error e
    | .ok tk_cache_nodes =>
      let work_template := app.get_work_file_template
      let publish_template := app.get_publish_file_template
      .ok (tk_cache_nodes.filterMap
        (cacheNodeItem sys app work_template publish_template))

/-! ## collector.py: toolkit USD rop nodes -/

/-- Surface of the optional `tk-houdini-usdrop` app. -/
structure UsdropApp where
  get_nodes : Except PyErr (List Node)
  get_work_file_template : Option Template
  get_publish_file_template : Option Template
  get_output_path : Node → String

/-- Loop body of `collect_tk_usdropnodes`.  Note `frame_sequence=False` and
the usd icon. -/
def usdropNodeItem (sys : Sys) (app : UsdropApp)
    (work_template publish_template : Option Template) (node : Node) : Option Item :=
  let output_path := app.get_output_path node
  if sys.pathExists output_path then
    some { name := sys.baseName output_path ++ " (" ++ node.nodePath ++ ")",
           srcPath := output_path, frameSequence := false,
           icon := some (sys.diskLocation ++ "/../icons/usd.png"),
           props := { work_template := work_template,
                      publish_template := publish_template } }
  else none

/-- `HoudiniSessionCollector.collect_tk_usdropnodes`.  Unlike the cache,
alembic and mantra collectors, the `get_nodes` call is not wrapped in a
`try/except AttributeError`, so any exception it raises propagates. -/
def collect_tk_usdropnodes (sys : Sys) (usdrop_app : Option UsdropApp) :
    Except PyErr (List Item) :=
  match usdrop_app with
  | none => .ok []
  | some app =>
    match app.get_nodes with
    | .error e => .error e
    | .ok tk_usdrop_nodes =>
      let work_template := app.get_work_file_template
      let publish_template := app.get_publish_file_template
      .ok (tk_usdrop_nodes.filterMap
        (usdropNodeItem sys app work_template publish_template))

/-! ## collector.py: toolkit alembic and mantra nodes -/

/-- Surface of the optional `tk-houdini-alembicnode` app (no publish
template is read by the collector). -/
structure AlembicApp where
  get_nodes : Except PyErr (List Node)
  get_work_file_template : Option Template
  get_output_path : Node → String

/-- Loop body of `collect_tk_alembicnodes`.  `_collect_file` is called without
`frame_sequence`, whose default is `False`; only `work_template` is set, and
only when truthy. -/
def alembicNodeItem (sys : Sys) (app : AlembicApp)
    (work_template : Option Template) (node : Node) : Option Item :=
  let out_path := app.get_output_path node
  if sys.pathExists out_path then
    some { name := sys.baseName out_path ++ " (" ++ node.nodePath ++ ")",
           srcPath := out_path, frameSequence := false,
           props := { work_template := work_template } }
  else none

/-- `HoudiniSessionCollector.collect_tk_alembicnodes`. -/
def collect_tk_alembicnodes (sys : Sys) (alembicnode_app : Option AlembicApp) :
    Except PyErr (List Item) :=
  match alembicnode_app with
  | none => .ok []
  | some app =>
    match app.get_nodes with
    | .error .attributeError => .ok []
    | .error e => .error e
    | .ok tk_alembic_nodes =>
      let work_template := app.get_work_file_template
      .ok (tk_alembic_nodes.filterMap (alembicNodeItem sys app work_template))

/-- Surface of the optional `tk-houdini-mantranode` app. -/
structure MantraApp where
  get_nodes : Except PyErr (List Node)
  get_work_file_template : Option Template
  get_output_path : Node → String

/-- Loop body of `collect_tk_mantranodes` (`frame_sequence=True`). -/
def mantraNodeItem (sys : Sys) (app : MantraApp)
    (work_template : Option Template) (node : Node) : Option Item :=
  let out_path := app.get_output_path node
  if sys.pathExists out_path then
    some { name := sys.baseName out_path ++ " (" ++ node.nodePath ++ ")",
           srcPath := out_path, frameSequence := true,
           props := { work_template := work_template } }
  else none

/-- `HoudiniSessionCollector.collect_tk_mantranodes`. -/
def collect_tk_mantranodes (sys : Sys) (mantranode_app : Option MantraApp) :
    Except PyErr (List Item) :=
  match mantranode_app with
  | none => .ok []
  | some app =>
    match app.get_nodes with
    | .error .attributeError => .ok []
    | .error e => .error e
    | .ok tk_mantra_nodes =>
      let work_template := app.get_work_file_template
      .ok (tk_mantra_nodes.filterMap (mantraNodeItem sys app work_template))

/-! ## collector.py: toolkit Arnold nodes -/

/-- An AOV enable toggle parameter returned by `getDifferentFileAOVs`:
its name and the truthiness of `parm.eval()`. -/
structure Parm where
  name : String
  enabled : Bool
deriving DecidableEq, Repr

/-- Surface of `app.handler` for the `tk-houdini-arnold` app. -/
structure ArnoldHandler where
  getNodes : Except PyErr (List Node)
  getOutputPath : Node → String
  getDifferentFileAOVs : Node → List Parm

/-- Surface of the optional `tk-houdini-arnold` app. -/
structure ArnoldApp where
  handler : ArnoldHandler
  get_work_file_template : Option Template
  get_publish_file_template : Option Template

/-- Python dict assignment `d[k] = v`: overwrite in place or append. -/
def dictInsert (d : List (String × String)) (k v : String) :
    List (String × String) :=
  if d.any (fun p => p.1 == k) then
    d.map (fun p => if p.1 == k then (k, v) else p)
  else d ++ [(k, v)]

/-- The `aovs` dict built by `__collect_tk_arnoldaovs`: for each enabled
separate-file AOV toggle, maps the AOV label parm value to the separate-file
parm value. -/
def arnoldAovDict (sys : Sys) (app : ArnoldApp) (node : Node) :
    List (String × String) :=
  (app.handler.getDifferentFileAOVs node).foldl
    (fun aovs parm =>
      if parm.enabled then
        let parmNumber := parm.name.replace "ar_aov_separate" ""
        dictInsert aovs
          (sys.parmEval node ("ar_aov_label" ++ parmNumber))
          (sys.parmEval node ("ar_aov_separate_file" ++ parmNumber))
      else aovs)
    []

/-- Items created by the loop of `__collect_tk_arnoldaovs`: one per AOV whose
separate file exists on disk. -/
def arnoldAovItems (sys : Sys) (work_template : Option Template)
    (aovs : List (String × String)) : List Item :=
  aovs.filterMap (fun aov =>
    if sys.pathExists aov.2 then
      some { name := aov.1 ++ " AOV Render", srcPath := aov.2,
             frameSequence := true,
             props := { work_template := work_template } }
    else none)

/-- Loop body of `collect_tk_arnoldnodes` for one node: the beauty item plus
its AOV sub-items, or nothing when the output path does not exist. -/
def arnoldNodeItems (sys : Sys) (app : ArnoldApp)
    (work_template publish_template : Option Template)
    (first_frame last_frame : Int) (node : Node) : List Item :=
  let out_path := app.handler.getOutputPath node
  if sys.pathExists out_path then
    { name := "Beauty Render (" ++ node.nodePath ++ ")",
      srcPath := out_path, frameSequence := true,
      props := { work_template := work_template,
                 publish_template := publish_template,
                 first_frame := some first_frame,
                 last_frame := some last_frame } }
      :: arnoldAovItems sys work_template (arnoldAovDict sys app node)
  else []

/-- `HoudiniSessionCollector.collect_tk_arnoldnodes`.  The app lookup and the
`HTOA` environment variable gate the collection.  The `try/except` around
`app.handler.getNodes()` only logs: control then falls through to the
template and frame-range reads with `nodes` left unbound, so the loop header
`for node in nodes` raises a NameError (UnboundLocalError). -/
def collect_tk_arnoldnodes (sys : Sys) (htoa_env : Option String)
    (arnold_app : Option ArnoldApp) (frame_range : ℚ × ℚ) :
    Except PyErr (List Item) :=
  match arnold_app with
  | none => .ok []
  | some app =>
    if strFalsy htoa_env then .ok []
    else
      match app.handler.getNodes with
      | .error _ => .error (.nameError "nodes")
      | .ok nodes =>
        let work_template := app.get_work_file_template
        let publish_template := app.get_publish_file_template
        let first_frame := pyInt frame_range.1
        let last_frame := pyInt frame_range.2
        .ok (nodes.flatMap (arnoldNodeItems sys app work_template publish_template
          first_frame last_frame))

/-! ## collector.py: toolkit RenderMan nodes -/

/-- A filter-output record (`name`/`path` dict) of the RenderMan handler. -/
structure RFilter where
  name : String
  path : String
deriving DecidableEq, Repr

/-- Surface of `app.handler` for the `tk-houdini-renderman` app. -/
structure RendermanHandler where
  get_published_status : Node → Bool
  get_filters_output : Node → List RFilter

/-- Surface of the optional `tk-houdini-renderman` app. -/
structure RendermanApp where
  handler : RendermanHandler
  get_all_renderman_nodes : Except PyErr (List Node)
  get_work_template : Option Template
  get_publish_template : Option Template
  get_output_path : Node → String
  get_render_name : Node → String

/-- Items created by `__collect_tk_rendermanfilters`: one per activated filter
whose output file exists. -/
def rendermanFilterItems (sys : Sys) (work_template : Option Template)
    (filters : List RFilter) : List Item :=
  filters.filterMap (fun f =>
    if sys.pathExists f.path then
      some { name := f.name, srcPath := f.path, frameSequence := true,
             props := { work_template := work_template,
                        publish_name := some (sys.publishName f.path) } }
    else none)

/-- Loop body of `collect_tk_rendermannodes` for one node: skips nodes with an
empty output path, a missing output file, or an already-published status;
otherwise creates the render item plus its filter sub-items. -/
def rendermanNodeItems (sys : Sys) (app : RendermanApp)
    (work_template publish_template : Option Template)
    (first_frame last_frame : Int) (node : Node) : List Item :=
  let output_path := app.get_output_path node
  if output_path.length > 0 then
    if sys.pathExists output_path then
      if app.handler.get_published_status node then []
      else
        { name := "Render (" ++ app.get_render_name node ++ "), "
            ++ pathBasename node.nodePath,
          srcPath := output_path, frameSequence := true,
          props := { work_template := work_template,
                     publish_template := publish_template,
                     first_frame := some first_frame,
                     last_frame := some last_frame,
                     publish_name := some (sys.publishName output_path) } }
          :: rendermanFilterItems sys work_template
               (app.handler.get_filters_output node)
    else []
  else []

/-- `HoudiniSessionCollector.collect_tk_rendermannodes`.  The app lookup and
the `RMANTREE` environment variable gate the collection; a failure of
`get_all_renderman_nodes` is logged and the collector returns. -/
def collect_tk_rendermannodes (sys : Sys) (rman_env : Option String)
    (renderman_app : Option RendermanApp) (frame_range : ℚ × ℚ) :
    Except PyErr (List Item) :=
  match renderman_app with
  | none => .ok []
  | some app =>
    if strFalsy rman_env then .ok []
    else
      match app.get_all_renderman_nodes with
      | .error _ => .ok []
      | .ok nodes =>
        let work_template := app.get_work_template
        let publish_template := app.get_publish_template
        let first_frame := pyInt frame_range.1
        let last_frame := pyInt frame_range.2
        .ok (nodes.flatMap (rendermanNodeItems sys app work_template
          publish_template first_frame last_frame))

/-! ## collector.py: generic output-node collection -/

/-- The `_HOUDINI_OUTPUTS` table for the rop category, in insertion order:
node type and output file parm. -/
def HOUDINI_OUTPUTS : List (String × String) :=
  [("alembic", "filename"), ("comp", "copoutput"), ("ifd", "vm_picture"),
   ("opengl", "picture"), ("wren", "wr_picture")]

/-- The flags remembered by `process_current_session` about which toolkit
nodes were collected. -/
structure Flags where
  alembic_nodes_collected : Bool
  mantra_nodes_collected : Bool
  arnold_nodes_collected : Bool
  renderman_nodes_collected : Bool
deriving DecidableEq, Repr

/-- Inner loop body of `collect_node_outputs` for one node of a generic
output type: evaluates the output parm and skips the node when the path does
not exist. -/
def genericNodeItem (sys : Sys) (path_parm_name : String) (node : Node) :
    Option Item :=
  let path := sys.parmEval node path_parm_name
  if sys.pathExists path then
    some { name := sys.baseName path ++ " (" ++ node.nodePath ++ ")",
           srcPath := path, frameSequence := true }
  else none

/-- Outer loop of `collect_node_outputs` over the `_HOUDINI_OUTPUTS` entries.
Each processed entry contributes the pair of its node type and the items
created from the instances of that type; the two `continue` branches skip the
alembic and ifd types when the corresponding toolkit flag is set. -/
def collectNodeOutputsGo (sys : Sys) (flags : Flags) :
    List (String × String) → List (String × List Item)
  | [] => []
  | (node_type, path_parm_name) :: rest =>
    if node_type == "alembic" && flags.alembic_nodes_collected then
      collectNodeOutputsGo sys flags rest
    else if node_type == "ifd" && flags.mantra_nodes_collected then
      collectNodeOutputsGo sys flags rest
    else
      (node_type,
        (sys.instances node_type).filterMap (genericNodeItem sys path_parm_name))
        :: collectNodeOutputsGo sys flags rest

/-- `HoudiniSessionCollector.collect_node_outputs`: the generic collection
that `process_current_session` runs after all toolkit-node collections. -/
def collect_node_outputs (sys : Sys) (flags : Flags) :
    List (String × List Item) :=
  collectNodeOutputsGo sys flags HOUDINI_OUTPUTS

/-! ## submit_for_review.py -/

/-- Surface of the `tk-multi-deadlinereviewsubmission` app: `submit_version`
returns a Version entity or a falsy result. -/
structure ReviewApp where
  submit_version : Template → List (String × String) → List PublishData →
    Option Int → Option Int → Int → String → String → Option Version

/-- The host session state read by `publish`: `hou.fps()` and
`hou.hipFile.basename()`. -/
structure HouEnv where
  fps : ℚ
  hipBasename : String

/-- One call to `submit_version`, recording the eight arguments in order. -/
structure SubmitCall where
  template : Template
  fields : List (String × String)
  publish_records : List PublishData
  first_frame : Option Int
  last_frame : Option Int
  fps : Int
  filename : String
  comment : String

/-- `HoudiniDeadlineSubmitForReviewPlugin.publish`: returns the trace of
`submit_version` calls made and the outcome.  Raises `AttributeError` when
the `path` property is absent (`None.replace`), a generic exception when
`sg_publish_data` or `publish_template` is absent or the template does not
validate the render path, `AttributeError` when the review app is not
registered (`None.submit_version`), and a generic exception after the call
when `submit_version` returns a falsy result. -/
def publish (osSep : String) (hou : HouEnv) (review_app : Option ReviewApp)
    (item : Item) : List SubmitCall × Except PyErr Unit :=
  match item.props.path with
  | none => ([], .error .attributeError)
  | some p =>
    let render_path := p.replace osSep "/"
    match item.props.sg_publish_data with
    | none => ([], .error (.exception "sg_publish_data was not found"))
    | some sg_publish_data =>
      let comment := item.description
      match item.props.publish_template with
      | none => ([], .error (.exception "publish_template property is missing"))
      | some publish_template =>
        if publish_template.validate render_path then
          let render_path_fields := publish_template.get_fields render_path
          let first_frame := item.props.first_frame
          let last_frame := item.props.last_frame
          let fps := pyInt hou.fps
          let filename := splitextStem hou.hipBasename
          match review_app with
          | none => ([], .error .attributeError)
          | some app =>
            let call : SubmitCall :=
              { template := publish_template, fields := render_path_fields,
                publish_records := [sg_publish_data],
                first_frame := first_frame, last_frame := last_frame,
                fps := fps, filename := filename, comment := comment }
            match app.submit_version publish_template render_path_fields
                [sg_publish_data] first_frame last_frame fps filename comment with
            | some _ => ([call], .ok ())
            | none => ([call], .error (.exception "Review submission failed"))
        else ([], .error (.exception "did not match the render template"))

/-- The result dictionary returned by `accept`. -/
structure AcceptResult where
  accepted : Bool
  checked : Bool
deriving DecidableEq, Repr

/-- One `accepted = False` branch of `accept`: when `cond` holds, `accepted`
becomes false and the debug log indexes `item.properties["publish_name"]`,
which raises a KeyError when that property is absent. -/
def acceptStep (item : Item) (cond accepted : Bool) : Except PyErr Bool :=
  if cond then
    match item.props.publish_name with
    | none => .error (.keyError "publish_name")
    | some _ => .ok false
  else .ok accepted

/-- The first half of `accept`: `accepted` starts true and the three skip
checks (missing review app, missing `first_frame`, missing `last_frame`)
run in source order. -/
def acceptChecks (review_app : Option ReviewApp) (item : Item) :
    Except PyErr Bool :=
  match acceptStep item review_app.isNone true with
  | .error e => .error e
  | .ok a1 =>
    match acceptStep item item.props.first_frame.isNone a1 with
    | .error e => .error e
    | .ok a2 => acceptStep item item.props.last_frame.isNone a2

/-- `HoudiniDeadlineSubmitForReviewPlugin.accept`.  After the three skip
checks, `item.properties.get("path").replace(os.sep, '/')` raises an
AttributeError when `path` is absent, and
`item.properties.get("publish_template").get_fields(path)` raises an
AttributeError when `publish_template` is absent.  (The source
`if path is None` branch is unreachable: `path` is the result of
`.replace`.) -/
def accept (review_app : Option ReviewApp) (osSep : String) (item : Item) :
    Except PyErr AcceptResult :=
  match acceptChecks review_app item with
  | .error e => .error e
  | .ok accepted =>
        match item.props.path with
        | none => .error .attributeError
        | some p =>
          let path := p.replace osSep "/"
          match item.props.publish_template with
          | none => .error .attributeError
          | some output_template =>
            let output_fields := output_template.get_fields path
            let render_name := output_fields.lookup "name"
            let checked :=
              match render_name with
              | some s => ["main", "beauty", "master"].contains s
              | none => false
            .ok { accepted := accepted, checked := checked }

/-! ## Concrete sample instances used by witnesses and counterexamples -/

def sampleSys : Sys :=
  { pathExists := fun _ => false, baseName := id, publishName := id,
    parmEval := fun _ p => p, instances := fun _ => [],
    diskLocation := "/config/hooks" }

def sampleNode : Node := { nodePath := "/out/mantra1" }

def okTemplate : Template :=
  { validate := fun _ => true, get_fields := fun _ => [("name", "main")] }

def badTemplate : Template :=
  { validate := fun _ => false, get_fields := fun _ => [] }

def sampleHou : HouEnv := { fps := 24, hipBasename := "shot_010_v003.hip" }

def okReviewApp : ReviewApp :=
  { submit_version := fun _ _ _ _ _ _ _ _ => some { id := 1 } }

def failingReviewApp : ReviewApp :=
  { submit_version := fun _ _ _ _ _ _ _ _ => none }

def sampleCacheApp : CacheApp :=
  { get_nodes := .ok [sampleNode], get_work_file_template := none,
    get_publish_file_template := none,
    get_output_path := fun _ => "/cache/out.bgeo" }

def sampleUsdropApp : UsdropApp :=
  { get_nodes := .ok [sampleNode], get_work_file_template := none,
    get_publish_file_template := none,
    get_output_path := fun _ => "/usd/out.usd" }

def sampleAlembicApp : AlembicApp :=
  { get_nodes := .ok [sampleNode], get_work_file_template := none,
    get_output_path := fun _ => "/abc/out.abc" }

def sampleMantraApp : MantraApp :=
  { get_nodes := .ok [sampleNode], get_work_file_template := none,
    get_output_path := fun _ => "/ifd/out.exr" }

def sampleArnoldApp : ArnoldApp :=
  { handler := { getNodes := .ok [sampleNode],
                 getOutputPath := fun _ => "/ass/out.exr",
                 getDifferentFileAOVs := fun _ => [] },
    get_work_file_template := none, get_publish_file_template := none }

def sampleRendermanApp : RendermanApp :=
  { handler := { get_published_status := fun _ => false,
                 get_filters_output := fun _ => [] },
    get_all_renderman_nodes := .ok [sampleNode],
    get_work_template := none, get_publish_template := none,
    get_output_path := fun _ => "/rman/out.exr",
    get_render_name := fun _ => "beauty" }

/-! ## Claim C5 -/

/-- Claim C5: for every per-renderer collection operation (cache, usdrop,
alembic, mantra, arnold, renderman), when the corresponding app is not
registered in the app registry of the engine (the lookup returns none), the
operation treats the app as absent: it logs, creates no items, reads no
nodes, and returns normally. -/
theorem collectors_return_when_app_missing :
    ∀ (sys : Sys) (htoa rman : Option String) (fr : ℚ × ℚ),
      collect_tk_cachenodes sys none = .ok [] ∧
      collect_tk_usdropnodes sys none = .ok [] ∧
      collect_tk_alembicnodes sys none = .ok [] ∧
      collect_tk_mantranodes sys none = .ok [] ∧
      collect_tk_arnoldnodes sys htoa none fr = .ok [] ∧
      collect_tk_rendermannodes sys rman none fr = .ok [] := by
  intro sys htoa rman fr
  exact ⟨rfl, rfl, rfl, rfl, rfl, rfl⟩

/-! ## Claim C7 -/

/-- Claim C7: the optional renderer integrations are gated by environment
variables: with the Arnold app installed but `HTOA` unset, Arnold collection
creates no items and returns, and with the RenderMan app installed but
`RMANTREE` unset, RenderMan collection creates no items and returns. -/
theorem env_var_gating :
    ∀ (sys : Sys) (aapp : ArnoldApp) (rapp : RendermanApp) (fr : ℚ × ℚ),
      collect_tk_arnoldnodes sys none (some aapp) fr = .ok [] ∧
      collect_tk_rendermannodes sys none (some rapp) fr = .ok [] := by
  intro sys aapp rapp fr
  exact ⟨rfl, rfl⟩

/-! ## Claim C10 -/

lemma collectNodeOutputsGo_flags_congr (sys : Sys) (f g : Flags)
    (ha : f.alembic_nodes_collected = g.alembic_nodes_collected)
    (hm : f.mantra_nodes_collected = g.mantra_nodes_collected) :
    ∀ l, collectNodeOutputsGo sys f l = collectNodeOutputsGo sys g l := by
  intro l
  induction l with
  | nil => rfl
  | cons hd tl ih =>
    obtain ⟨node_type, path_parm_name⟩ := hd
    simp only [collectNodeOutputsGo, ha, hm, ih]

/-- Claim C10: in the generic output collection, the alembic node type is
skipped iff the alembic-nodes-collected flag is set and the ifd (mantra)
node type is skipped iff the mantra-nodes-collected flag is set; comp,
opengl and wren are always processed (in table order), and the arnold and
renderman flags never affect the generic collection. -/
theorem generic_collection_skip_flags :
    (∀ (sys : Sys) (flags : Flags),
      (collect_node_outputs sys flags).map Prod.fst =
        (if flags.alembic_nodes_collected then [] else ["alembic"]) ++
          ["comp"] ++
          (if flags.mantra_nodes_collected then [] else ["ifd"]) ++
          ["opengl", "wren"]) ∧
    (∀ (sys : Sys) (f g : Flags),
      f.alembic_nodes_collected = g.alembic_nodes_collected →
      f.mantra_nodes_collected = g.mantra_nodes_collected →
      collect_node_outputs sys f = collect_node_outputs sys g) := by
  constructor
  · intro sys flags
    cases ha : flags.alembic_nodes_collected <;>
      cases hm : flags.mantra_nodes_collected <;>
        simp [collect_node_outputs, collectNodeOutputsGo, HOUDINI_OUTPUTS, ha, hm]
  · intro sys f g ha hm
    exact collectNodeOutputsGo_flags_congr sys f g ha hm HOUDINI_OUTPUTS

def flagsArnoldOnly : Flags :=
  { alembic_nodes_collected := false, mantra_nodes_collected := false,
    arnold_nodes_collected := true, renderman_nodes_collected := false }

def flagsNone : Flags :=
  { alembic_nodes_collected := false, mantra_nodes_collected := false,
    arnold_nodes_collected := false, renderman_nodes_collected := false }

/-- Witness for claim C10: at a concrete session, flipping only the arnold
flag leaves the generic collection unchanged. -/
theorem generic_collection_skip_flags_witness :
    collect_node_outputs sampleSys flagsArnoldOnly =
      collect_node_outputs sampleSys flagsNone :=
  generic_collection_skip_flags.2 sampleSys flagsArnoldOnly flagsNone rfl rfl

/-! ## Claim C6 -/

/-- Claim C6: for every node enumerated by any node-collection routine of the
collector (cache, usdrop, alembic, mantra, arnold, renderman, generic), if
the evaluated output path of the node does not exist on disk, no publish item is
created for that node and iteration continues with the next node. -/
theorem missing_output_skips_item :
    ∀ (sys : Sys) (node : Node),
      (∀ (app : CacheApp) (wt pt : Option Template),
        sys.pathExists (app.get_output_path node) = false →
        cacheNodeItem sys app wt pt node = none) ∧
      (∀ (app : UsdropApp) (wt pt : Option Template),
        sys.pathExists (app.get_output_path node) = false →
        usdropNodeItem sys app wt pt node = none) ∧
      (∀ (app : AlembicApp) (wt : Option Template),
        sys.pathExists (app.get_output_path node) = false →
        alembicNodeItem sys app wt node = none) ∧
      (∀ (app : MantraApp) (wt : Option Template),
        sys.pathExists (app.get_output_path node) = false →
        mantraNodeItem sys app wt node = none) ∧
      (∀ (app : ArnoldApp) (wt pt : Option Template) (ff lf : Int),
        sys.pathExists (app.handler.getOutputPath node) = false →
        arnoldNodeItems sys app wt pt ff lf node = []) ∧
      (∀ (app : RendermanApp) (wt pt : Option Template) (ff lf : Int),
        sys.pathExists (app.get_output_path node) = false →
        rendermanNodeItems sys app wt pt ff lf node = []) ∧
      (∀ path_parm_name : String,
        sys.pathExists (sys.parmEval node path_parm_name) = false →
        genericNodeItem sys path_parm_name node = none) := by
  intro sys node
  refine ⟨?_, ?_, ?_, ?_, ?_, ?_, ?_⟩
  · intro app wt pt h
    simp [cacheNodeItem, h]
  · intro app wt pt h
    simp [usdropNodeItem, h]
  · intro app wt h
    simp [alembicNodeItem, h]
  · intro app wt h
    simp [mantraNodeItem, h]
  · intro app wt pt ff lf h
    simp [arnoldNodeItems, h]
  · intro app wt pt ff lf h
    simp [rendermanNodeItems, h]
  · intro path_parm_name h
    simp [genericNodeItem, h]

/-- Witness for claim C6: with a filesystem on which no path exists, each
routine creates no item for a concrete node. -/
theorem missing_output_skips_item_witness :
    cacheNodeItem sampleSys sampleCacheApp none none sampleNode = none ∧
    usdropNodeItem sampleSys sampleUsdropApp none none sampleNode = none ∧
    alembicNodeItem sampleSys sampleAlembicApp none sampleNode = none ∧
    mantraNodeItem sampleSys sampleMantraApp none sampleNode = none ∧
    arnoldNodeItems sampleSys sampleArnoldApp none none 1 24 sampleNode = [] ∧
    rendermanNodeItems sampleSys sampleRendermanApp none none 1 24 sampleNode = [] ∧
    genericNodeItem sampleSys "vm_picture" sampleNode = none :=
  ⟨(missing_output_skips_item sampleSys sampleNode).1 sampleCacheApp none none rfl,
   (missing_output_skips_item sampleSys sampleNode).2.1 sampleUsdropApp none none rfl,
   (missing_output_skips_item sampleSys sampleNode).2.2.1 sampleAlembicApp none rfl,
   (missing_output_skips_item sampleSys sampleNode).2.2.2.1 sampleMantraApp none rfl,
   (missing_output_skips_item sampleSys sampleNode).2.2.2.2.1 sampleArnoldApp none none 1 24 rfl,
   (missing_output_skips_item sampleSys sampleNode).2.2.2.2.2.1 sampleRendermanApp none none 1 24 rfl,
   (missing_output_skips_item sampleSys sampleNode).2.2.2.2.2.2 "vm_picture" rfl⟩

/-! ## Claim C2 -/

def brokenUsdropApp : UsdropApp :=
  { get_nodes := .error .attributeError, get_work_file_template := none,
    get_publish_file_template := none, get_output_path := fun _ => "" }

/-- Claim C2 counterexample: the usdrop node-collection operation does not
catch an `AttributeError` raised by `get_nodes`; the exception propagates
out of the operation instead of being logged and swallowed. -/
theorem usdrop_attribute_error_propagates :
    collect_tk_usdropnodes sampleSys (some brokenUsdropApp) =
      .error .attributeError := rfl

/-- Claim C2 (amended): the cache, alembic and mantra node-collection
operations catch an `AttributeError` raised by the renderer app method
`get_nodes()`, log a warning and return without creating any items; the
usdrop operation has no such handler and lets the `AttributeError`
propagate. -/
theorem get_nodes_attribute_error_handling :
    ∀ (sys : Sys) (capp : CacheApp) (aapp : AlembicApp) (mapp : MantraApp)
      (uapp : UsdropApp),
      capp.get_nodes = .error .attributeError →
      aapp.get_nodes = .error .attributeError →
      mapp.get_nodes = .error .attributeError →
      uapp.get_nodes = .error .attributeError →
      collect_tk_cachenodes sys (some capp) = .ok [] ∧
      collect_tk_alembicnodes sys (some aapp) = .ok [] ∧
      collect_tk_mantranodes sys (some mapp) = .ok [] ∧
      collect_tk_usdropnodes sys (some uapp) = .error .attributeError := by
  intro sys capp aapp mapp uapp hc ha hm hu
  refine ⟨?_, ?_, ?_, ?_⟩
  · simp [collect_tk_cachenodes, hc]
  · simp [collect_tk_alembicnodes, ha]
  · simp [collect_tk_mantranodes, hm]
  · simp [collect_tk_usdropnodes, hu]

def brokenCacheApp : CacheApp :=
  { get_nodes := .error .attributeError, get_work_file_template := none,
    get_publish_file_template := none, get_output_path := fun _ => "" }

def brokenAlembicApp : AlembicApp :=
  { get_nodes := .error .attributeError, get_work_file_template := none,
    get_output_path := fun _ => "" }

def brokenMantraApp : MantraApp :=
  { get_nodes := .error .attributeError, get_work_file_template := none,
    get_output_path := fun _ => "" }

/-- Witness for claim C2 (amended) at concrete apps whose `get_nodes` raises
`AttributeError`. -/
theorem get_nodes_attribute_error_handling_witness :
    collect_tk_cachenodes sampleSys (some brokenCacheApp) = .ok [] ∧
    collect_tk_alembicnodes sampleSys (some brokenAlembicApp) = .ok [] ∧
    collect_tk_mantranodes sampleSys (some brokenMantraApp) = .ok [] ∧
    collect_tk_usdropnodes sampleSys (some brokenUsdropApp) =
      .error .attributeError :=
  get_nodes_attribute_error_handling sampleSys brokenCacheApp brokenAlembicApp
    brokenMantraApp brokenUsdropApp rfl rfl rfl rfl

/-! ## Claim C3 -/

def failingArnoldApp : ArnoldApp :=
  { handler := { getNodes := .error (.exception "connection refused"),
                 getOutputPath := fun _ => "",
                 getDifferentFileAOVs := fun _ => [] },
    get_work_file_template := none, get_publish_file_template := none }

/-- Claim C3: when `app.handler.getNodes()` raises, the Arnold collection
operation logs the error but — its `except` block missing the `return` that
the parallel RenderMan collector has — falls through with `nodes` unbound
and raises a NameError at the loop header instead of returning normally.
Evaluated here at a concrete failing input. -/
theorem arnold_get_nodes_failure_raises :
    collect_tk_arnoldnodes sampleSys (some "/opt/htoa")
      (some failingArnoldApp) (1, 24) = .error (.nameError "nodes") := by
  rfl

/-! ## Claim C1 -/

/-- Claim C1: `publish` raises before calling `submit_version` when
`sg_publish_data` is absent, when `publish_template` is absent, or when the
publish template does not validate the render path; it raises after the call
when `submit_version` returns a falsy result; and when all three
preconditions hold and `submit_version` returns a truthy version, `publish`
completes without raising. -/
theorem publish_error_paths :
    ∀ (osSep : String) (hou : HouEnv) (review_app : Option ReviewApp)
      (item : Item),
      (item.props.sg_publish_data = none →
        (publish osSep hou review_app item).1 = [] ∧
        ∃ e, (publish osSep hou review_app item).2 = .error e) ∧
      (item.props.publish_template = none →
        (publish osSep hou review_app item).1 = [] ∧
        ∃ e, (publish osSep hou review_app item).2 = .error e) ∧
      (∀ (p : String) (t : Template),
        item.props.path = some p →
        item.props.publish_template = some t →
        t.validate (p.replace osSep "/") = false →
        (publish osSep hou review_app item).1 = [] ∧
        ∃ e, (publish osSep hou review_app item).2 = .error e) ∧
      (∀ (p : String) (d : PublishData) (t : Template) (app : ReviewApp),
        item.props.path = some p →
        item.props.sg_publish_data = some d →
        item.props.publish_template = some t →
        t.validate (p.replace osSep "/") = true →
        review_app = some app →
        app.submit_version t (t.get_fields (p.replace osSep "/")) [d]
          item.props.first_frame item.props.last_frame (pyInt hou.fps)
          (splitextStem hou.hipBasename) item.description = none →
        (publish osSep hou review_app item).1.length = 1 ∧
        ∃ e, (publish osSep hou review_app item).2 = .error e) ∧
      (∀ (p : String) (d : PublishData) (t : Template) (app : ReviewApp)
        (v : Version),
        item.props.path = some p →
        item.props.sg_publish_data = some d →
        item.props.publish_template = some t →
        t.validate (p.replace osSep "/") = true →
        review_app = some app →
        app.submit_version t (t.get_fields (p.replace osSep "/")) [d]
          item.props.first_frame item.props.last_frame (pyInt hou.fps)
          (splitextStem hou.hipBasename) item.description = some v →
        (publish osSep hou review_app item).1.length = 1 ∧
        (publish osSep hou review_app item).2 = .ok ()) := by
  intro osSep hou review_app item
  refine ⟨?_, ?_, ?_, ?_, ?_⟩
  · intro h
    cases hpath : item.props.path with
    | none => simp [publish, hpath]
    | some p => simp [publish, hpath, h]
  · intro h
    cases hpath : item.props.path with
    | none => simp [publish, hpath]
    | some p =>
      cases hsg : item.props.sg_publish_data with
      | none => simp [publish, hpath, hsg]
      | some d => simp [publish, hpath, hsg, h]
  · intro p t hp ht hv
    cases hsg : item.props.sg_publish_data with
    | none => simp [publish, hp, hsg]
    | some d => simp [publish, hp, hsg, ht, hv]
  · intro p d t app hp hd ht hv happ hsub
    subst happ
    simp [publish, hp, hd, ht, hv, hsub]
  · intro p d t app v hp hd ht hv happ hsub
    subst happ
    simp [publish, hp, hd, ht, hv, hsub]

def itemNoSg : Item :=
  { name := "seq", srcPath := "/renders/shot.exr", frameSequence := true,
    props := { path := some "/renders/shot.exr",
               publish_template := some okTemplate,
               first_frame := some 1, last_frame := some 24 } }

def itemNoTemplate : Item :=
  { name := "seq", srcPath := "/renders/shot.exr", frameSequence := true,
    props := { path := some "/renders/shot.exr",
               sg_publish_data := some { id := 7 },
               first_frame := some 1, last_frame := some 24 } }

def itemBadTemplate : Item :=
  { name := "seq", srcPath := "/renders/shot.exr", frameSequence := true,
    props := { path := some "/renders/shot.exr",
               sg_publish_data := some { id := 7 },
               publish_template := some badTemplate,
               first_frame := some 1, last_frame := some 24 } }

def itemGood : Item :=
  { name := "seq", srcPath := "/renders/shot.exr", frameSequence := true,
    props := { path := some "/renders/shot.exr",
               sg_publish_data := some { id := 7 },
               publish_template := some okTemplate,
               first_frame := some 1, last_frame := some 24 } }

/-- Witness for claim C1: each branch of `publish_error_paths` instantiated
at a concrete item and review app. -/
theorem publish_error_paths_witness :
    ((publish "/" sampleHou (some okReviewApp) itemNoSg).1 = [] ∧
      ∃ e, (publish "/" sampleHou (some okReviewApp) itemNoSg).2 = .error e) ∧
    ((publish "/" sampleHou (some okReviewApp) itemNoTemplate).1 = [] ∧
      ∃ e, (publish "/" sampleHou (some okReviewApp) itemNoTemplate).2 = .error e) ∧
    ((publish "/" sampleHou (some okReviewApp) itemBadTemplate).1 = [] ∧
      ∃ e, (publish "/" sampleHou (some okReviewApp) itemBadTemplate).2 = .error e) ∧
    ((publish "/" sampleHou (some failingReviewApp) itemGood).1.length = 1 ∧
      ∃ e, (publish "/" sampleHou (some failingReviewApp) itemGood).2 = .error e) ∧
    ((publish "/" sampleHou (some okReviewApp) itemGood).1.length = 1 ∧
      (publish "/" sampleHou (some okReviewApp) itemGood).2 = .ok ()) :=
  ⟨(publish_error_paths "/" sampleHou (some okReviewApp) itemNoSg).1 rfl,
   (publish_error_paths "/" sampleHou (some okReviewApp) itemNoTemplate).2.1 rfl,
   (publish_error_paths "/" sampleHou (some okReviewApp) itemBadTemplate).2.2.1
     "/renders/shot.exr" badTemplate rfl rfl rfl,
   (publish_error_paths "/" sampleHou (some failingReviewApp) itemGood).2.2.2.1
     "/renders/shot.exr" { id := 7 } okTemplate failingReviewApp
     rfl rfl rfl rfl rfl rfl,
   (publish_error_paths "/" sampleHou (some okReviewApp) itemGood).2.2.2.2
     "/renders/shot.exr" { id := 7 } okTemplate okReviewApp { id := 1 }
     rfl rfl rfl rfl rfl rfl⟩

/-! ## Claim C4 -/

/-- Claim C4: when `publish` proceeds to submission it calls `submit_version`
with exactly (template, fields, publish_records, first_frame, last_frame,
fps, filename, comment) in that order: the publish template of the item, that
template applied via `get_fields` to the item path with os separators
replaced by `/`, the one-element list holding `sg_publish_data`, the
item frame properties, the host frame rate truncated to an integer, the
session basename without extension, and the item description. -/
theorem publish_submit_version_arguments :
    ∀ (osSep : String) (hou : HouEnv) (app : ReviewApp) (item : Item)
      (p : String) (d : PublishData) (t : Template),
      item.props.path = some p →
      item.props.sg_publish_data = some d →
      item.props.publish_template = some t →
      t.validate (p.replace osSep "/") = true →
      (publish osSep hou (some app) item).1 =
        [{ template := t,
           fields := t.get_fields (p.replace osSep "/"),
           publish_records := [d],
           first_frame := item.props.first_frame,
           last_frame := item.props.last_frame,
           fps := pyInt hou.fps,
           filename := splitextStem hou.hipBasename,
           comment := item.description }] := by
  intro osSep hou app item p d t hp hd ht hv
  cases hsub : app.submit_version t (t.get_fields (p.replace osSep "/")) [d]
      item.props.first_frame item.props.last_frame (pyInt hou.fps)
      (splitextStem hou.hipBasename) item.description <;>
    simp [publish, hp, hd, ht, hv, hsub]

/-- Witness for claim C4: the single submission call made for a concrete
item, with the eight arguments spelled out. -/
theorem publish_submit_version_arguments_witness :
    (publish "/" sampleHou (some okReviewApp) itemGood).1 =
      [{ template := okTemplate,
         fields := okTemplate.get_fields ("/renders/shot.exr".replace "/" "/"),
         publish_records := [{ id := 7 }],
         first_frame := itemGood.props.first_frame,
         last_frame := itemGood.props.last_frame,
         fps := pyInt sampleHou.fps,
         filename := splitextStem sampleHou.hipBasename,
         comment := itemGood.description }] :=
  publish_submit_version_arguments "/" sampleHou okReviewApp itemGood
    "/renders/shot.exr" { id := 7 } okTemplate rfl rfl rfl rfl

/-! ## Claim C9 -/

lemma accept_missing_errors (review_app : Option ReviewApp) (osSep : String)
    (item : Item)
    (h : item.props.path = none ∨ item.props.publish_template = none) :
    ∃ e, accept review_app osSep item = .error e := by
  unfold accept
  cases hc : acceptChecks review_app item with
  | error e => exact ⟨e, rfl⟩
  | ok accepted =>
    cases hpath : item.props.path with
    | none => exact ⟨.attributeError, rfl⟩
    | some p =>
      cases htmpl : item.props.publish_template with
      | none => exact ⟨.attributeError, rfl⟩
      | some t =>
        rcases h with h | h
        · rw [h] at hpath
          exact Option.noConfusion hpath
        · rw [h] at htmpl
          exact Option.noConfusion htmpl

/-- Claim C9: for every item lacking the `path` property or lacking the
`publish_template` property, `accept` raises an exception instead of
returning a result dictionary with accepted set to false; `accept` returns a
result dictionary only when both properties are present. -/
theorem accept_requires_path_and_template :
    ∀ (review_app : Option ReviewApp) (osSep : String) (item : Item),
      (item.props.path = none ∨ item.props.publish_template = none →
        ∃ e, accept review_app osSep item = .error e) ∧
      (∀ r, accept review_app osSep item = .ok r →
        item.props.path ≠ none ∧ item.props.publish_template ≠ none) := by
  intro review_app osSep item
  refine ⟨accept_missing_errors review_app osSep item, ?_⟩
  intro r hr
  constructor
  · intro hpath
    obtain ⟨e, he⟩ := accept_missing_errors review_app osSep item (Or.inl hpath)
    rw [hr] at he
    exact Except.noConfusion he
  · intro htmpl
    obtain ⟨e, he⟩ := accept_missing_errors review_app osSep item (Or.inr htmpl)
    rw [hr] at he
    exact Except.noConfusion he

def itemMissingPath : Item :=
  { name := "seq", srcPath := "/renders/shot.exr", frameSequence := true,
    props := { publish_template := some okTemplate, first_frame := some 1,
               last_frame := some 24, publish_name := some "shot" } }

/-- Witness for claim C9: `accept` raises on a concrete item whose property
bag lacks `path`. -/
theorem accept_requires_path_and_template_witness :
    ∃ e, accept (some okReviewApp) "/" itemMissingPath = .error e :=
  (accept_requires_path_and_template (some okReviewApp) "/" itemMissingPath).1
    (Or.inl rfl)
